import Mathlib

/-!
Shallow embedding of the bulk-synchronization core of the
Investment-Advise-Platform repository (src/database_connect.py and
src/get_market_data.py), together with theorems settling the frozen
claims about it.

Modelling decisions, each tied to a place in the source:

* A database is a finite map from relation names to frames; a frame is the
  embedding of a pandas DataFrame: an ordered column list plus rows given as
  association lists from column name to value.
* `connector.query_columns` (lines 39-47) returns the column list of the
  named table, or the empty list when the table is absent or metadata access
  fails.
* `connector.update_from_dataframe` (lines 106-163) is embedded statement by
  statement.  The block `with self.connection.begin():` (line 144) journals
  the statements run on `self.connection`; the journal is applied on commit
  and discarded when a statement raises.  Crucially, line 146 calls
  `work.to_sql(temp_name, self.engine, ...)` with the ENGINE, not the
  connection: pandas checks out a separate pooled connection and commits the
  staging CREATE plus INSERT immediately, outside the open transaction.  The
  embedding therefore applies the staging write directly to the committed
  database.  A `fault` parameter selects which statement inside the block, if
  any, raises an exception (exceptions from the underlying driver are not
  decidable from the source, so they are injected).
* The outer `try`/`except` of each operation is embedded as a boundary
  function converting any body exception (`Except.error`) into the logged
  result the Python function produces.  `get_snapshot_id` (lines 75-81) has
  no such handler, so its body exceptions remain visible at its boundary.
* `connector.update_record` (lines 83-104): line 93 executes
  `update_values.pop(conditions.keys(), None)`.  `dict.pop` hashes its key
  argument and a `dict_keys` view object is unhashable, so this raises
  `TypeError` unconditionally, before any SQL text is built; the `except`
  at line 103 catches and logs it.  The body is therefore the immediate
  exception and the boundary is a no-op on the database.
* `get_price_history` (src/get_market_data.py lines 64-114): the two
  validation guards at lines 88-91 are embedded as a dispatch that either
  raises `ValueError` (before any HTTP request is issued) or proceeds to the
  request; the remote call itself is outside the embedded core.
-/

/-- A database cell value: the scenario tables carry text, integers and
timestamps; timestamps are represented as opaque strings. -/
inductive Value
  | s (v : String)
  | i (v : Int)
deriving DecidableEq

/-- A row of a frame or of a relation: an association list from column name
to value. -/
abbrev Row := List (String × Value)

/-- Value of column `c` in row `r`, or `none` when the row has no such
column. -/
def rowGet (r : Row) (c : String) : Option Value :=
  (r.find? (fun p => decide (p.1 = c))).map (fun p => p.2)

/-- Embedding of a pandas DataFrame and of a relational table: ordered column
names plus rows. -/
structure Frame where
  cols : List String
  rows : List Row
deriving DecidableEq

/-- Column projection, `df.loc[:, cs]`: keep the columns of `cs`, in the
order of `cs`. -/
def Frame.project (df : Frame) (cs : List String) : Frame :=
  ⟨cs, df.rows.map (fun r => cs.filterMap (fun c => (rowGet r c).map (fun v => (c, v))))⟩

/-- The tuple of key-column values of a row, used for de-duplication. -/
def keyTuple (keys : List String) (r : Row) : List (Option Value) :=
  keys.map (fun k => rowGet r k)

/-- Worker for `dedupFirst`: drop each row whose key tuple has been seen
before. -/
def dedupFirstAux (keys : List String) : List (List (Option Value)) → List Row → List Row
  | _, [] => []
  | seen, r :: rs =>
    if keyTuple keys r ∈ seen then dedupFirstAux keys seen rs
    else r :: dedupFirstAux keys (keyTuple keys r :: seen) rs

/-- Embedding of `DataFrame.drop_duplicates(subset=key_columns)` with the
default `keep="first"` (line 137): keep only the first row of each key
tuple, in batch order. -/
def dedupFirst (keys : List String) (rows : List Row) : List Row :=
  dedupFirstAux keys [] rows

/-- The join predicate of the generated UPDATE (line 150): row `t` of the
target matches row `s` of the staging table when every key column is equal. -/
def rowMatches (keys : List String) (t s : Row) : Bool :=
  keys.all (fun k => decide (rowGet t k = rowGet s k))

/-- The SET clause of the generated UPDATE (line 149): overwrite each update
column of target row `t` with the value the staging row `s` carries for it. -/
def updateRow (ucols : List String) (s t : Row) : Row :=
  t.map (fun p => if p.1 ∈ ucols then (p.1, (rowGet s p.1).getD p.2) else p)

/-- Semantics of the set-based `UPDATE ... FROM staging` (lines 152-157):
every target row matched by a staging row is rewritten from that staging row;
unmatched target rows are untouched and unmatched staging rows are ignored. -/
def bulkApply (keys ucols : List String) (staging target : List Row) : List Row :=
  target.map (fun t =>
    match staging.find? (fun s => rowMatches keys t s) with
    | some s => updateRow ucols s t
    | none => t)

/-- The database: a finite association list from relation name to frame. -/
abbrev DB := List (String × Frame)

/-- Catalog lookup of a relation by name. -/
def lookupTable : DB → String → Option Frame
  | [], _ => none
  | (m, f) :: rest, n => if m = n then some f else lookupTable rest n

/-- Create or replace the relation named `n`. -/
def setTable : DB → String → Frame → DB
  | [], n, f => [(n, f)]
  | (m, g) :: rest, n, f => if m = n then (n, f) :: rest else (m, g) :: setTable rest n f

/-- Drop the relation named `n` when present. -/
def dropTable (db : DB) (n : String) : DB :=
  db.filter (fun p => decide (p.1 ≠ n))

/-- A change journaled inside an open transaction scope. -/
inductive TxnOp
  | put (n : String) (f : Frame)
  | drop (n : String)

/-- Apply one journaled change. -/
def applyOp (db : DB) : TxnOp → DB
  | .put n f => setTable db n f
  | .drop n => dropTable db n

/-- Apply a journal in order; used both for the per-statement view inside the
transaction and for the commit. -/
def applyOps (db : DB) (ops : List TxnOp) : DB :=
  ops.foldl applyOp db

/-- Embedding of `connector.query_columns` (lines 39-47): the ordered column
names of the table, or `[]` when the table is absent or metadata access
fails. -/
def query_columns (db : DB) (tname : String) : List String :=
  match lookupTable db tname with
  | some f => f.cols
  | none => []

/-- Column reconciliation used by the insert path (line 55):
`[col for col in df.columns if col in self.query_columns(table_name)]`. -/
def reconcile_for_write (batchCols tableCols : List String) : List String :=
  batchCols.filter (fun c => decide (c ∈ tableCols))

/-- Resolution of the update-column set (lines 128-130): default to the
frame columns minus the keys, then intersect with the table columns and
remove the keys again. -/
def resolve_update_columns (dfCols key_columns : List String)
    (update_columns : Option (List String)) (table_cols : List String) : List String :=
  let base :=
    match update_columns with
    | none => dfCols.filter (fun c => decide (c ∉ key_columns))
    | some l => l
  base.filter (fun c => decide (c ∈ table_cols ∧ c ∉ key_columns))

/-- The deterministic staging-table name of line 143:
`f"tmp_update_{table_name}"`. -/
def stagingName (tname : String) : String :=
  "tmp_update_" ++ tname

/-- Which statement inside the `with self.connection.begin():` block raises;
driver failures are not decidable from the source, so they are injected. -/
inductive UFault
  | dropFirst
  | load
  | updateStmt
  | dropLast
deriving DecidableEq

/-- Successful outcomes of `update_from_dataframe`: the two documented no-ops
(lines 131-133 and 138-140) and the completed bulk update. -/
inductive UpdateOk
  | noopNoColumns
  | noopEmpty
  | success
deriving DecidableEq

/-- Outcome of `update_from_dataframe` after its outer `except` (line 162):
either a successful result or a logged failure carrying the cause. -/
inductive UpdateResult
  | ok (k : UpdateOk)
  | failure (msg : String)
deriving DecidableEq

/-- The `with self.connection.begin():` block of lines 144-159.  Statements
on `self.connection` are journaled against the per-statement view and applied
at commit; a raising statement discards the journal and the exception escapes
to the outer handler.  Line 146 runs `work.to_sql(temp_name, self.engine,
if_exists="replace", index=False)` on a SEPARATE engine connection, so its
staging write commits immediately, outside the journal.  An empty key list
yields an empty `WHERE` clause, a SQL syntax error; an update column absent
from the staging frame makes the generated `s.<col>` reference undefined.
The case of a pre-existing staging relation deadlocks in reality (the
journaled drop holds a lock the engine connection then waits for); theorems
about complete runs therefore assume no staging relation pre-exists. -/
def runTxn (db : DB) (tname : String) (work : Frame)
    (key_columns ucols : List String) (fault : Option UFault) :
    DB × Except String UpdateOk :=
  let tmp := stagingName tname
  if fault = some UFault.dropFirst then (db, Except.error "OperationalError: drop failed") else
  let ops1 : List TxnOp := if (lookupTable db tmp).isSome then [TxnOp.drop tmp] else []
  if fault = some UFault.load then (db, Except.error "OperationalError: staging load failed") else
  let committed := setTable db tmp work
  if fault = some UFault.updateStmt then
    (committed, Except.error "OperationalError: update failed") else
  if key_columns = [] then
    (committed, Except.error "ProgrammingError: syntax error in WHERE clause") else
  if ¬ (∀ c ∈ ucols, c ∈ work.cols) then
    (committed, Except.error "UndefinedColumn: staging column missing") else
  match lookupTable (applyOps committed ops1) tname with
  | none => (committed, Except.error "UndefinedTable: target missing")
  | some tgt =>
    let tgt2 : Frame := ⟨tgt.cols, bulkApply key_columns ucols work.rows tgt.rows⟩
    let ops2 := ops1 ++ [TxnOp.put tname tgt2]
    if fault = some UFault.dropLast then
      (committed, Except.error "OperationalError: drop failed") else
    let ops3 := ops2 ++ (if (lookupTable (applyOps committed ops2) tmp).isSome
      then [TxnOp.drop tmp] else [])
    (applyOps committed ops3, Except.ok UpdateOk.success)

/-- Body of `connector.update_from_dataframe` (lines 118-161), before the
outer `except`.  Step order follows the source: column fetch and key
validation (lines 119-125), update-column resolution and the no-op return
(lines 128-133), projection plus de-duplication (lines 136-140; pandas
raises `KeyError` from `drop_duplicates(subset=key_columns)` when a key
column is absent from the projected frame), then the transaction block. -/
def update_from_dataframe_body (db : DB) (df : Frame) (tname : String)
    (key_columns : List String) (update_columns : Option (List String))
    (fault : Option UFault) : DB × Except String UpdateOk :=
  let table_cols := query_columns db tname
  if table_cols = [] then
    (db, Except.error "ValueError: could not fetch columns")
  else if ¬ (∀ k ∈ key_columns, k ∈ table_cols) then
    (db, Except.error "ValueError: key columns not in table")
  else
    let ucols := resolve_update_columns df.cols key_columns update_columns table_cols
    if ucols = [] then (db, Except.ok UpdateOk.noopNoColumns)
    else if ¬ (∀ k ∈ key_columns, k ∈ df.cols) then
      (db, Except.error "KeyError: key column missing from frame")
    else
      let cols_needed := (key_columns ++ ucols).filter (fun c => decide (c ∈ df.cols))
      let work : Frame := ⟨cols_needed, dedupFirst key_columns (Frame.project df cols_needed).rows⟩
      if work.rows = [] ∨ work.cols = [] then (db, Except.ok UpdateOk.noopEmpty)
      else runTxn db tname work key_columns ucols fault

/-- `connector.update_from_dataframe` with its outer `try`/`except`
(lines 118 and 162-163): every body exception is caught, logged and turned
into a failure result; nothing propagates. -/
def update_from_dataframe (db : DB) (df : Frame) (tname : String)
    (key_columns : List String) (update_columns : Option (List String))
    (fault : Option UFault) : DB × UpdateResult :=
  match update_from_dataframe_body db df tname key_columns update_columns fault with
  | (db2, Except.ok k) => (db2, UpdateResult.ok k)
  | (db2, Except.error e) => (db2, UpdateResult.failure e)

/-- The `if_exists` modes of `to_sql` accepted by `insert_dataframe`
(line 49). -/
inductive IfExists
  | fail
  | replace
  | append
deriving DecidableEq

/-- Body of `connector.insert_dataframe` (lines 54-60): filter the frame to
the live table columns (line 55) and load it with `to_sql`.  Chunking
(lines 56-59) affects only transport granularity, so the load is modelled as
a single bulk write; a `fault` models an underlying driver failure. -/
def insert_dataframe_body (db : DB) (df : Frame) (tname : String)
    (ife : IfExists) (fault : Bool) : DB × Except String Unit :=
  let filtered := Frame.project df (reconcile_for_write df.cols (query_columns db tname))
  if fault then (db, Except.error "OperationalError: insert failed")
  else
    match ife, lookupTable db tname with
    | IfExists.fail, some _ => (db, Except.error "ValueError: table already present")
    | IfExists.append, some t => (setTable db tname ⟨t.cols, t.rows ++ filtered.rows⟩, Except.ok ())
    | _, _ => (setTable db tname filtered, Except.ok ())

/-- `connector.insert_dataframe` with its outer `try`/`except`
(lines 54 and 61-62): every body exception is caught and logged; the method
returns `None` either way. -/
def insert_dataframe (db : DB) (df : Frame) (tname : String)
    (ife : IfExists) (fault : Bool) : DB × Except String Unit :=
  match insert_dataframe_body db df tname ife fault with
  | (db2, Except.error _) => (db2, Except.ok ())
  | r => r

/-- Body of `connector.update_record` (lines 92-102).  Line 93 executes
`update_values.pop(conditions.keys(), None)`: `dict.pop` hashes its key
argument, a `dict_keys` view is unhashable, and so the statement raises
`TypeError` unconditionally, before any SET or WHERE text is built and
before any SQL is executed.  The database is untouched. -/
def update_record_body (db : DB) (tname : String)
    (update_values conditions : List (String × Value)) : DB × Except String Unit :=
  (db, Except.error "TypeError: unhashable type: dict_keys")

/-- `connector.update_record` with its outer `try`/`except`
(lines 92 and 103-104): the `TypeError` from line 93 is caught and logged;
the method returns `None` and no table changes. -/
def update_record (db : DB) (tname : String)
    (update_values conditions : List (String × Value)) : DB × Except String Unit :=
  match update_record_body db tname update_values conditions with
  | (db2, Except.error _) => (db2, Except.ok ())
  | r => r

/-- How the snapshot request goes: normally, with an empty RETURNING row
(line 78), or with the underlying driver raising. -/
inductive SnapFault
  | normal
  | noRow
  | raise
deriving DecidableEq

/-- Embedding of `connector.get_snapshot_id` (lines 75-81).  The method has
NO `try`/`except`: only the empty-RETURNING case is handled (logged, `-1`
returned); a driver exception propagates to the caller, which the embedding
records as an `Except.error` at the operation boundary.  The auto-generated
serial key is modelled as the current row count plus one. -/
def get_snapshot_id (db : DB) (fault : SnapFault) : DB × Except String Int :=
  match fault with
  | SnapFault.raise => (db, Except.error "OperationalError: connection failure")
  | SnapFault.noRow => (db, Except.ok (-1))
  | SnapFault.normal =>
    let t := (lookupTable db "snapshot").getD ⟨["id"], []⟩
    let newId : Int := Int.ofNat t.rows.length + 1
    (setTable db "snapshot" ⟨t.cols, t.rows ++ [[("id", Value.i newId)]]⟩, Except.ok newId)

/-- The `valid_periods` dict of `get_price_history`
(src/get_market_data.py lines 76-81), with the `.get(period_type, [])`
default for unknown period types. -/
def valid_periods (period_type : String) : List String :=
  if period_type = "day" then ["1", "2", "3", "4", "5", "10"]
  else if period_type = "month" then ["1", "2", "3", "6"]
  else if period_type = "year" then ["1", "2", "3", "5", "10", "15", "20"]
  else if period_type = "ytd" then ["1"]
  else []

/-- The `valid_frequencies` dict of `get_price_history` (lines 82-87), with
the `.get(frequency_type, [])` default. -/
def valid_frequencies (frequency_type : String) : List String :=
  if frequency_type = "minute" then ["1", "5", "10", "15", "30"]
  else if frequency_type = "daily" then ["1"]
  else if frequency_type = "weekly" then ["1"]
  else if frequency_type = "monthly" then ["1"]
  else []

/-- Result of the parameter-validation stage of `get_price_history`: either
a `ValueError` is raised before any request is issued, or control proceeds
to the HTTP request of line 95. -/
inductive PriceHistoryStep
  | raisedValueError (msg : String)
  | proceedsToRequest
deriving DecidableEq

/-- The validation guards of `get_price_history` (lines 88-91), in source
order: the period check raises first, then the frequency check; only past
both does the function reach the external request. -/
def get_price_history_dispatch (period_type period frequency_type frequency : String) :
    PriceHistoryStep :=
  if period_type ∉ ["day", "month", "year", "ytd"] ∨ period ∉ valid_periods period_type then
    PriceHistoryStep.raisedValueError
      "period_type must be one of day month year ytd with valid period values"
  else if frequency_type ∉ ["minute", "daily", "weekly", "monthly"] ∨
      frequency ∉ valid_frequencies frequency_type then
    PriceHistoryStep.raisedValueError
      "frequency_type must be one of minute daily weekly monthly with valid frequency values"
  else PriceHistoryStep.proceedsToRequest

/-- The concrete target table of the specification scenario: `positions`
with columns (symbol, shares, updated_at) and one row `(AAPL, 10, t0)`. -/
def positionsFrame : Frame :=
  ⟨["symbol", "shares", "updated_at"],
   [[("symbol", Value.s "AAPL"), ("shares", Value.i 10), ("updated_at", Value.s "t0")]]⟩

/-- A database holding only the scenario target table. -/
def db0 : DB := [("positions", positionsFrame)]

/-- The scenario update batch `[(AAPL, 25, t1), (AAPL, 999, t2)]`: two rows
with the same key tuple. -/
def batchDf : Frame :=
  ⟨["symbol", "shares", "updated_at"],
   [[("symbol", Value.s "AAPL"), ("shares", Value.i 25), ("updated_at", Value.s "t1")],
    [("symbol", Value.s "AAPL"), ("shares", Value.i 999), ("updated_at", Value.s "t2")]]⟩

/-! Auxiliary lemmas about the database map. -/

theorem lookupTable_setTable_self (db : DB) (n : String) (f : Frame) :
    lookupTable (setTable db n f) n = some f := by
  induction db with
  | nil => simp [setTable, lookupTable]
  | cons p rest ih =>
    obtain ⟨m, g⟩ := p
    by_cases h : m = n
    · simp [setTable, lookupTable, h]
    · simp [setTable, lookupTable, h, ih]

theorem lookupTable_setTable_ne (db : DB) (n m : String) (f : Frame) (h : m ≠ n) :
    lookupTable (setTable db n f) m = lookupTable db m := by
  have h2 : n ≠ m := Ne.symm h
  induction db with
  | nil => simp [setTable, lookupTable, h2]
  | cons p rest ih =>
    obtain ⟨a, g⟩ := p
    by_cases ha : a = n
    · subst ha
      simp [setTable, lookupTable, h2]
    · simp [setTable, lookupTable, ha, ih]

theorem lookupTable_dropTable_self (db : DB) (n : String) :
    lookupTable (dropTable db n) n = none := by
  induction db with
  | nil => rfl
  | cons p rest ih =>
    obtain ⟨a, g⟩ := p
    simp only [dropTable] at ih ⊢
    by_cases ha : a = n
    · simpa [List.filter_cons, ha] using ih
    · simpa [List.filter_cons, ha, lookupTable] using ih

theorem lookupTable_dropTable_ne (db : DB) (n m : String) (h : m ≠ n) :
    lookupTable (dropTable db n) m = lookupTable db m := by
  induction db with
  | nil => rfl
  | cons p rest ih =>
    obtain ⟨a, g⟩ := p
    simp only [dropTable, ne_eq, decide_not] at ih ⊢
    by_cases ha : a = n
    · subst ha
      have h2 : a ≠ m := Ne.symm h
      simpa [List.filter_cons, lookupTable, h2] using ih
    · simp [List.filter_cons, ha, lookupTable, ih]

theorem stagingName_ne (tname : String) : stagingName tname ≠ tname := by
  intro h
  have hl := congrArg String.length h
  simp [stagingName, String.length_append] at hl
  exact absurd hl (by decide)

/-! Auxiliary lemmas about rows, matching, and de-duplication. -/

theorem map_congr_mem {α β : Type} (f g : α → β) :
    ∀ l : List α, (∀ a ∈ l, f a = g a) → l.map f = l.map g := by
  intro l
  induction l with
  | nil => intro _; rfl
  | cons x xs ih =>
    intro h
    simp only [List.map_cons]
    rw [h x (List.mem_cons_self x xs), ih (fun a ha => h a (List.mem_cons_of_mem x ha))]

theorem all_congr_mem {α : Type} (p q : α → Bool) :
    ∀ l : List α, (∀ a ∈ l, p a = q a) → l.all p = l.all q := by
  intro l
  induction l with
  | nil => intro _; rfl
  | cons x xs ih =>
    intro h
    simp only [List.all_cons]
    rw [h x (List.mem_cons_self x xs), ih (fun a ha => h a (List.mem_cons_of_mem x ha))]

theorem find?_congr_all {α : Type} (p q : α → Bool) :
    ∀ l : List α, (∀ a ∈ l, p a = q a) → l.find? p = l.find? q := by
  intro l
  induction l with
  | nil => intro _; rfl
  | cons x xs ih =>
    intro h
    have hx := h x (List.mem_cons_self x xs)
    by_cases hp : p x = true
    · rw [List.find?_cons_of_pos _ hp, List.find?_cons_of_pos _ (hx ▸ hp)]
    · have hp2 : ¬ q x = true := fun hq => hp (hx ▸ hq)
      rw [List.find?_cons_of_neg _ hp, List.find?_cons_of_neg _ hp2]
      exact ih (fun a ha => h a (List.mem_cons_of_mem x ha))

theorem map_eq_map_mem {α β : Type} (f g : α → β) :
    ∀ l : List α, l.map f = l.map g → ∀ a ∈ l, f a = g a := by
  intro l
  induction l with
  | nil => intro _ a ha; exact absurd ha (List.not_mem_nil a)
  | cons x xs ih =>
    intro h a ha
    simp only [List.map_cons, List.cons.injEq] at h
    rcases List.mem_cons.mp ha with rfl | hmem
    · exact h.1
    · exact ih h.2 a hmem

theorem rowGet_cons (p : String × Value) (ps : Row) (c : String) :
    rowGet (p :: ps) c = if p.1 = c then some p.2 else rowGet ps c := by
  by_cases h : p.1 = c
  · simp [rowGet, List.find?_cons, h]
  · simp [rowGet, List.find?_cons, h]

theorem rowGet_updateRow_not_mem (ucols : List String) (s t : Row) (k : String)
    (hk : k ∉ ucols) : rowGet (updateRow ucols s t) k = rowGet t k := by
  induction t with
  | nil => rfl
  | cons p ps ih =>
    by_cases hp : p.1 ∈ ucols
    · have hpk : ¬ p.1 = k := fun hh => hk (hh ▸ hp)
      simp only [updateRow, List.map_cons, if_pos hp] at *
      rw [rowGet_cons, rowGet_cons]
      simp [hpk, ih]
    · by_cases hpk : p.1 = k
      · simp only [updateRow, List.map_cons, if_neg hp]
        rw [rowGet_cons, rowGet_cons]
        simp [hpk]
      · simp only [updateRow, List.map_cons, if_neg hp] at *
        rw [rowGet_cons, rowGet_cons]
        simp [hpk, ih]

theorem updateRow_idem (ucols : List String) (s t : Row) :
    updateRow ucols s (updateRow ucols s t) = updateRow ucols s t := by
  simp only [updateRow, List.map_map]
  apply map_congr_mem
  intro p _
  by_cases hp : p.1 ∈ ucols
  · simp only [Function.comp_apply, if_pos hp]
    cases h : rowGet s p.1 with
    | none => simp [h, hp]
    | some w => simp [h, hp]
  · simp only [Function.comp_apply, if_neg hp]

theorem rowMatches_updateRow (keys ucols : List String) (hdisj : ∀ k ∈ keys, k ∉ ucols)
    (s0 s t : Row) : rowMatches keys (updateRow ucols s0 t) s = rowMatches keys t s := by
  apply all_congr_mem
  intro k hk
  rw [rowGet_updateRow_not_mem ucols s0 t k (hdisj k hk)]

theorem bulkApply_idem (keys ucols : List String) (hdisj : ∀ k ∈ keys, k ∉ ucols)
    (staging target : List Row) :
    bulkApply keys ucols staging (bulkApply keys ucols staging target) =
      bulkApply keys ucols staging target := by
  simp only [bulkApply, List.map_map]
  apply map_congr_mem
  intro t _
  simp only [Function.comp_apply]
  cases hf : staging.find? (fun s => rowMatches keys t s) with
  | none => simp [hf]
  | some s =>
    have hstable : ∀ s2 ∈ staging, rowMatches keys (updateRow ucols s t) s2 = rowMatches keys t s2 :=
      fun s2 _ => rowMatches_updateRow keys ucols hdisj s s2 t
    have hfind : staging.find? (fun s2 => rowMatches keys (updateRow ucols s t) s2) = some s := by
      rw [find?_congr_all _ _ staging hstable, hf]
    simp only [hf, hfind, updateRow_idem]

theorem keyTuple_eq_of_rowGet (keys : List String) (s1 s2 : Row)
    (h : keyTuple keys s1 = keyTuple keys s2) : ∀ k ∈ keys, rowGet s1 k = rowGet s2 k := by
  intro k hk
  exact map_eq_map_mem _ _ keys h k hk

theorem rowMatches_of_keyTuple_eq (keys : List String) (t s1 s2 : Row)
    (h : keyTuple keys s1 = keyTuple keys s2) :
    rowMatches keys t s1 = rowMatches keys t s2 := by
  apply all_congr_mem
  intro k hk
  rw [keyTuple_eq_of_rowGet keys s1 s2 h k hk]

theorem find?_dedupFirstAux (keys : List String) (F : Row → Bool)
    (hF : ∀ s1 s2, keyTuple keys s1 = keyTuple keys s2 → F s1 = F s2) :
    ∀ (rows : List Row) (seen : List (List (Option Value))),
      (∀ s, keyTuple keys s ∈ seen → F s = false) →
      (dedupFirstAux keys seen rows).find? F = rows.find? F := by
  intro rows
  induction rows with
  | nil => intro seen _; rfl
  | cons r rs ih =>
    intro seen hseen
    by_cases hmem : keyTuple keys r ∈ seen
    · have hFr : ¬ F r = true := by simp [hseen r hmem]
      rw [dedupFirstAux, if_pos hmem, List.find?_cons_of_neg _ hFr]
      exact ih seen hseen
    · by_cases hFr : F r = true
      · rw [dedupFirstAux, if_neg hmem, List.find?_cons_of_pos _ hFr,
          List.find?_cons_of_pos _ hFr]
      · have hFr2 : F r = false := by
          cases h : F r
          · rfl
          · exact absurd h hFr
        rw [dedupFirstAux, if_neg hmem, List.find?_cons_of_neg _ hFr,
          List.find?_cons_of_neg _ hFr]
        refine ih (keyTuple keys r :: seen) ?_
        intro s hs
        rcases List.mem_cons.mp hs with h | h
        · rw [hF s r h]; exact hFr2
        · exact hseen s h

theorem find?_dedupFirst (keys : List String) (t : Row) (rows : List Row) :
    (dedupFirst keys rows).find? (fun s => rowMatches keys t s) =
      rows.find? (fun s => rowMatches keys t s) := by
  apply find?_dedupFirstAux keys _ (fun s1 s2 h => rowMatches_of_keyTuple_eq keys t s1 s2 h)
  intro s hs
  exact absurd hs (List.not_mem_nil _)

theorem dedupFirst_ne_nil (keys : List String) (rows : List Row) (h : rows ≠ []) :
    dedupFirst keys rows ≠ [] := by
  cases rows with
  | nil => exact absurd rfl h
  | cons r rs =>
    simp [dedupFirst, dedupFirstAux]

theorem resolve_update_columns_not_key (dfCols key_columns : List String)
    (update_columns : Option (List String)) (table_cols : List String) :
    ∀ c ∈ resolve_update_columns dfCols key_columns update_columns table_cols,
      c ∈ table_cols ∧ c ∉ key_columns := by
  intro c hc
  unfold resolve_update_columns at hc
  have h2 := List.mem_filter.mp hc
  exact of_decide_eq_true h2.2

/-! The complete success path of the bulk update, shared by the claims about
de-duplication and idempotence. -/

theorem applyOps_nil (db : DB) : applyOps db [] = db := rfl

theorem applyOps_cons (db : DB) (op : TxnOp) (ops : List TxnOp) :
    applyOps db (op :: ops) = applyOps (applyOp db op) ops := rfl

/-- The staging frame the pipeline builds from a batch: resolved update
columns, needed columns, projection, first-occurrence de-duplication
(lines 128-137 restated as one value). -/
def workFrame (df : Frame) (key_columns : List String)
    (update_columns : Option (List String)) (table_cols : List String) : Frame :=
  let ucols := resolve_update_columns df.cols key_columns update_columns table_cols
  let cols_needed := (key_columns ++ ucols).filter (fun c => decide (c ∈ df.cols))
  ⟨cols_needed, dedupFirst key_columns (Frame.project df cols_needed).rows⟩

/-- The frame the success path writes over the target table: the set-based
UPDATE applied to the target rows from the staging rows. -/
def updatedFrame (df : Frame) (key_columns : List String)
    (update_columns : Option (List String)) (tgt : Frame) : Frame :=
  ⟨tgt.cols,
   bulkApply key_columns (resolve_update_columns df.cols key_columns update_columns tgt.cols)
     (workFrame df key_columns update_columns tgt.cols).rows tgt.rows⟩

theorem update_success_run (db : DB) (df : Frame) (tname : String)
    (key_columns : List String) (update_columns : Option (List String)) (tgt : Frame)
    (htgt : lookupTable db tname = some tgt)
    (hcols : tgt.cols ≠ [])
    (hkeys : ∀ k ∈ key_columns, k ∈ tgt.cols)
    (hk0 : key_columns ≠ [])
    (hkdf : ∀ k ∈ key_columns, k ∈ df.cols)
    (hu0 : resolve_update_columns df.cols key_columns update_columns tgt.cols ≠ [])
    (hudf : ∀ c ∈ resolve_update_columns df.cols key_columns update_columns tgt.cols, c ∈ df.cols)
    (hwrows : (workFrame df key_columns update_columns tgt.cols).rows ≠ [])
    (hstag : lookupTable db (stagingName tname) = none) :
    update_from_dataframe db df tname key_columns update_columns none =
      (dropTable (setTable (setTable db (stagingName tname)
          (workFrame df key_columns update_columns tgt.cols)) tname
          (updatedFrame df key_columns update_columns tgt)) (stagingName tname),
       UpdateResult.ok UpdateOk.success) := by
  have hqc : query_columns db tname = tgt.cols := by simp [query_columns, htgt]
  have htne : tname ≠ stagingName tname := Ne.symm (stagingName_ne tname)
  obtain ⟨k0, hk0mem⟩ : ∃ k, k ∈ key_columns := by
    cases key_columns with
    | nil => exact absurd rfl hk0
    | cons k ks => exact ⟨k, List.mem_cons_self k ks⟩
  have hcnmem : k0 ∈ (key_columns ++
      resolve_update_columns df.cols key_columns update_columns tgt.cols).filter
      (fun c => decide (c ∈ df.cols)) :=
    List.mem_filter.mpr ⟨List.mem_append_left _ hk0mem, decide_eq_true (hkdf k0 hk0mem)⟩
  have hcn0 : (key_columns ++
      resolve_update_columns df.cols key_columns update_columns tgt.cols).filter
      (fun c => decide (c ∈ df.cols)) ≠ [] := List.ne_nil_of_mem hcnmem
  have hucw : ∀ c ∈ resolve_update_columns df.cols key_columns update_columns tgt.cols,
      c ∈ (key_columns ++
        resolve_update_columns df.cols key_columns update_columns tgt.cols).filter
        (fun c => decide (c ∈ df.cols)) := by
    intro c hc
    exact List.mem_filter.mpr ⟨List.mem_append_right _ hc, decide_eq_true (hudf c hc)⟩
  have hwrows2 := hwrows
  simp only [workFrame] at hwrows2
  have hlook1 : lookupTable (setTable db (stagingName tname)
      (workFrame df key_columns update_columns tgt.cols)) tname = some tgt := by
    rw [lookupTable_setTable_ne db (stagingName tname) tname _ htne, htgt]
  have hlook2 : lookupTable (setTable (setTable db (stagingName tname)
      (workFrame df key_columns update_columns tgt.cols)) tname
      (updatedFrame df key_columns update_columns tgt)) (stagingName tname) =
      some (workFrame df key_columns update_columns tgt.cols) := by
    rw [lookupTable_setTable_ne _ tname (stagingName tname) _ (stagingName_ne tname),
      lookupTable_setTable_self]
  simp only [update_from_dataframe, update_from_dataframe_body, runTxn, hqc,
    if_neg hcols, if_neg (not_not_intro hkeys), if_neg hu0, if_neg (not_not_intro hkdf),
    if_neg hk0]
  simp only [workFrame, updatedFrame] at hlook1 hlook2 ⊢
  simp only [hstag, Option.isSome_none, Bool.false_eq_true, if_false,
    reduceCtorEq, applyOps_nil, applyOps_cons, applyOp, List.nil_append,
    hlook1, hlook2, Option.isSome_some, if_true]
  rw [if_neg (not_or.mpr ⟨hwrows2, hcn0⟩)]
  rw [if_neg (not_not_intro hucw)]
  simp [applyOps_cons, applyOps_nil, applyOp]

theorem update_state_eq_of_early (db : DB) (df : Frame) (tname : String)
    (key_columns : List String) (update_columns : Option (List String)) (fault : Option UFault)
    (h : query_columns db tname = [] ∨
      ¬ (∀ k ∈ key_columns, k ∈ query_columns db tname) ∨
      resolve_update_columns df.cols key_columns update_columns (query_columns db tname) = [] ∨
      ¬ (∀ k ∈ key_columns, k ∈ df.cols) ∨
      (workFrame df key_columns update_columns (query_columns db tname)).rows = [] ∨
      (workFrame df key_columns update_columns (query_columns db tname)).cols = []) :
    (update_from_dataframe db df tname key_columns update_columns fault).1 = db := by
  simp only [workFrame] at h
  simp only [update_from_dataframe, update_from_dataframe_body]
  by_cases h1 : query_columns db tname = []
  · rw [if_pos h1]
  rw [if_neg h1]
  by_cases h2 : ¬ (∀ k ∈ key_columns, k ∈ query_columns db tname)
  · rw [if_pos h2]
  rw [if_neg h2]
  by_cases h3 : resolve_update_columns df.cols key_columns update_columns
      (query_columns db tname) = []
  · rw [if_pos h3]
  rw [if_neg h3]
  by_cases h4 : ¬ (∀ k ∈ key_columns, k ∈ df.cols)
  · rw [if_pos h4]
  rw [if_neg h4]
  rcases h with h | h | h | h | h | h
  · exact absurd h h1
  · exact absurd h h2
  · exact absurd h h3
  · exact absurd h h4
  · rw [if_pos (Or.inl h)]
  · rw [if_pos (Or.inr h)]

/-- C7: bulk_update is idempotent: running `update_from_dataframe` twice with
the same batch, target and key/update choice leaves the target table in the
same state as running it once.  The hypotheses keep the run inside the
faithfully modelled territory: no staging relation is leaked into the run
(a pre-existing one deadlocks the real code), the key list is nonempty (an
empty one makes the generated WHERE clause a syntax error), and every
resolved update column exists in the batch (otherwise the generated
`s.<col>` reference is a SQL error). -/
theorem C7_bulk_update_idempotent (db : DB) (df : Frame) (tname : String)
    (key_columns : List String) (update_columns : Option (List String))
    (hstag : lookupTable db (stagingName tname) = none)
    (hk0 : key_columns ≠ [])
    (hudf : ∀ c ∈ resolve_update_columns df.cols key_columns update_columns
        (query_columns db tname), c ∈ df.cols) :
    lookupTable (update_from_dataframe
        (update_from_dataframe db df tname key_columns update_columns none).1
        df tname key_columns update_columns none).1 tname =
      lookupTable (update_from_dataframe db df tname key_columns update_columns none).1 tname := by
  by_cases h1 : query_columns db tname = []
  · have e := update_state_eq_of_early db df tname key_columns update_columns none (Or.inl h1)
    rw [e, e]
  by_cases h2 : ¬ (∀ k ∈ key_columns, k ∈ query_columns db tname)
  · have e := update_state_eq_of_early db df tname key_columns update_columns none
      (Or.inr (Or.inl h2))
    rw [e, e]
  by_cases h3 : resolve_update_columns df.cols key_columns update_columns
      (query_columns db tname) = []
  · have e := update_state_eq_of_early db df tname key_columns update_columns none
      (Or.inr (Or.inr (Or.inl h3)))
    rw [e, e]
  by_cases h4 : ¬ (∀ k ∈ key_columns, k ∈ df.cols)
  · have e := update_state_eq_of_early db df tname key_columns update_columns none
      (Or.inr (Or.inr (Or.inr (Or.inl h4))))
    rw [e, e]
  by_cases h5 : (workFrame df key_columns update_columns (query_columns db tname)).rows = []
  · have e := update_state_eq_of_early db df tname key_columns update_columns none
      (Or.inr (Or.inr (Or.inr (Or.inr (Or.inl h5)))))
    rw [e, e]
  -- success path
  obtain ⟨tgt, htgt⟩ : ∃ t, lookupTable db tname = some t := by
    cases hl : lookupTable db tname with
    | none => exact absurd (by simp [query_columns, hl]) h1
    | some t => exact ⟨t, rfl⟩
  have hqc : query_columns db tname = tgt.cols := by simp [query_columns, htgt]
  rw [hqc] at h1 h2 h3 h5 hudf
  have htne : tname ≠ stagingName tname := Ne.symm (stagingName_ne tname)
  have hdisj : ∀ k ∈ key_columns,
      k ∉ resolve_update_columns df.cols key_columns update_columns tgt.cols := by
    intro k hk hkin
    exact (resolve_update_columns_not_key df.cols key_columns update_columns tgt.cols
      k hkin).2 hk
  have e1 := update_success_run db df tname key_columns update_columns tgt htgt h1
    (of_not_not h2) hk0 (of_not_not h4) h3 hudf h5 hstag
  have hupc : (updatedFrame df key_columns update_columns tgt).cols = tgt.cols := rfl
  have hU2 : updatedFrame df key_columns update_columns
      (updatedFrame df key_columns update_columns tgt) =
      updatedFrame df key_columns update_columns tgt := by
    show (⟨tgt.cols,
      bulkApply key_columns (resolve_update_columns df.cols key_columns update_columns tgt.cols)
        (workFrame df key_columns update_columns tgt.cols).rows
        (bulkApply key_columns
          (resolve_update_columns df.cols key_columns update_columns tgt.cols)
          (workFrame df key_columns update_columns tgt.cols).rows tgt.rows)⟩ : Frame) =
      ⟨tgt.cols,
       bulkApply key_columns (resolve_update_columns df.cols key_columns update_columns tgt.cols)
        (workFrame df key_columns update_columns tgt.cols).rows tgt.rows⟩
    rw [bulkApply_idem key_columns
      (resolve_update_columns df.cols key_columns update_columns tgt.cols) hdisj]
  simp only [e1]
  have htgt2 : lookupTable (dropTable (setTable (setTable db (stagingName tname)
      (workFrame df key_columns update_columns tgt.cols)) tname
      (updatedFrame df key_columns update_columns tgt)) (stagingName tname)) tname =
      some (updatedFrame df key_columns update_columns tgt) := by
    rw [lookupTable_dropTable_ne _ _ _ htne, lookupTable_setTable_self]
  have hstag2 : lookupTable (dropTable (setTable (setTable db (stagingName tname)
      (workFrame df key_columns update_columns tgt.cols)) tname
      (updatedFrame df key_columns update_columns tgt)) (stagingName tname))
      (stagingName tname) = none := lookupTable_dropTable_self _ _
  have e2 := update_success_run _ df tname key_columns update_columns
    (updatedFrame df key_columns update_columns tgt) htgt2 h1 (of_not_not h2) hk0
    (of_not_not h4) h3 hudf h5 hstag2
  simp only [e2]
  rw [lookupTable_dropTable_ne _ _ _ htne, lookupTable_setTable_self, hU2, htgt2]

/-- C1: for every batch, `update_from_dataframe` de-duplicates by
key_columns keeping only the first occurrence in batch order: on the
success path, every target row that matches some batch row by key ends up
rewritten from the FIRST batch row (in batch order) whose key tuple matches
it — the `find?` below runs over the projected batch BEFORE de-duplication,
so for a batch holding the same key twice the earlier row wins.
Instantiated by the witness on the spec scenario, where the batch
`[(AAPL, 25, t1), (AAPL, 999, t2)]` leaves the target row at `(AAPL, 25, t1)`,
not 999. -/
theorem C1_first_occurrence_wins (db : DB) (df : Frame) (tname : String)
    (key_columns : List String) (update_columns : Option (List String)) (tgt : Frame)
    (ucols cols_needed : List String)
    (htgt : lookupTable db tname = some tgt)
    (hu : ucols = resolve_update_columns df.cols key_columns update_columns tgt.cols)
    (hcn : cols_needed = (key_columns ++ ucols).filter (fun c => decide (c ∈ df.cols)))
    (hcols : tgt.cols ≠ [])
    (hkeys : ∀ k ∈ key_columns, k ∈ tgt.cols)
    (hk0 : key_columns ≠ [])
    (hkdf : ∀ k ∈ key_columns, k ∈ df.cols)
    (hu0 : ucols ≠ [])
    (hudf : ∀ c ∈ ucols, c ∈ df.cols)
    (hrows : df.rows ≠ [])
    (hstag : lookupTable db (stagingName tname) = none) :
    lookupTable (update_from_dataframe db df tname key_columns update_columns none).1 tname =
      some ⟨tgt.cols, tgt.rows.map (fun t =>
        match (Frame.project df cols_needed).rows.find? (fun s => rowMatches key_columns t s) with
        | some s => updateRow ucols s t
        | none => t)⟩ ∧
    (update_from_dataframe db df tname key_columns update_columns none).2 =
      UpdateResult.ok UpdateOk.success := by
  subst hu hcn
  have hwrows : (workFrame df key_columns update_columns tgt.cols).rows ≠ [] := by
    simp only [workFrame]
    apply dedupFirst_ne_nil
    simp only [Frame.project, ne_eq, List.map_eq_nil_iff]
    exact hrows
  have e1 := update_success_run db df tname key_columns update_columns tgt htgt hcols
    hkeys hk0 hkdf hu0 hudf hwrows hstag
  have hrows_eq : bulkApply key_columns
      (resolve_update_columns df.cols key_columns update_columns tgt.cols)
      (workFrame df key_columns update_columns tgt.cols).rows tgt.rows =
      tgt.rows.map (fun t =>
        match (Frame.project df ((key_columns ++
            resolve_update_columns df.cols key_columns update_columns tgt.cols).filter
            (fun c => decide (c ∈ df.cols)))).rows.find?
            (fun s => rowMatches key_columns t s) with
        | some s => updateRow (resolve_update_columns df.cols key_columns update_columns
            tgt.cols) s t
        | none => t) := by
    simp only [workFrame, bulkApply]
    apply map_congr_mem
    intro t _
    rw [find?_dedupFirst]
  constructor
  · simp only [e1]
    rw [lookupTable_dropTable_ne _ _ _ (Ne.symm (stagingName_ne tname)),
      lookupTable_setTable_self]
    exact congrArg some (congrArg (Frame.mk tgt.cols) hrows_eq)
  · simp only [e1]

/-- Witness for C1: the concrete spec scenario.  Target `positions` holds
`(AAPL, 10, t0)`; the batch holds `(AAPL, 25, t1)` then `(AAPL, 999, t2)`
with `key_columns = [symbol]`; the final row is `(AAPL, 25, t1)`. -/
theorem C1_first_occurrence_wins_witness :
    lookupTable (update_from_dataframe db0 batchDf "positions" ["symbol"] none none).1
      "positions" = some ⟨["symbol", "shares", "updated_at"],
        [[("symbol", Value.s "AAPL"), ("shares", Value.i 25), ("updated_at", Value.s "t1")]]⟩ ∧
    (update_from_dataframe db0 batchDf "positions" ["symbol"] none none).2 =
      UpdateResult.ok UpdateOk.success := by
  have h := C1_first_occurrence_wins db0 batchDf "positions" ["symbol"] none positionsFrame
    ["shares", "updated_at"] ["symbol", "shares", "updated_at"]
    (by decide) (by decide) (by decide) (by decide) (by decide) (by decide)
    (by decide) (by decide) (by decide) (by decide) (by decide)
  exact ⟨h.1.trans (by decide), h.2⟩

/-- Witness for C7: on the spec scenario, running the bulk update twice
leaves the `positions` table exactly as running it once does. -/
theorem C7_bulk_update_idempotent_witness :
    lookupTable (update_from_dataframe
        (update_from_dataframe db0 batchDf "positions" ["symbol"] none none).1
        batchDf "positions" ["symbol"] none none).1 "positions" =
      lookupTable (update_from_dataframe db0 batchDf "positions" ["symbol"] none none).1
        "positions" :=
  C7_bulk_update_idempotent db0 batchDf "positions" ["symbol"] none
    (by decide) (by decide) (by decide)

/-- C2 is FALSE of the code (code bug): not all statements of steps 5-8 run
inside the one transaction.  Line 146 loads the staging table through
`self.engine` — a separate, auto-committing connection — so when the UPDATE
statement raises, the rollback removes only the journaled connection
statements: the committed staging relation remains, a partial commit of the
operation observable after the call (the database differs from its initial
state) even though the failure is reported. -/
theorem C2_partial_commit_observable :
    (update_from_dataframe db0 batchDf "positions" ["symbol"] none
      (some UFault.updateStmt)).1 ≠ db0 ∧
    (update_from_dataframe db0 batchDf "positions" ["symbol"] none
      (some UFault.updateStmt)).2 = UpdateResult.failure "OperationalError: update failed" ∧
    lookupTable (update_from_dataframe db0 batchDf "positions" ["symbol"] none
      (some UFault.updateStmt)).1 "positions" = some positionsFrame := by
  decide

/-- C3 is FALSE of the code (code bug): after a bulk update whose UPDATE
statement fails, a relation with the staging name `tmp_update_positions`
is still present — the engine-side staging commit survives the rollback of
the connection transaction. -/
theorem C3_staging_survives_failure :
    lookupTable (update_from_dataframe db0 batchDf "positions" ["symbol"] none
      (some UFault.updateStmt)).1 (stagingName "positions") ≠ none := by
  decide

/-- C4: when the requested key columns are not a subset of the live target
columns, the bulk update reports a failure (the raised `ValueError`, caught
and logged at the boundary) and performs no mutation: the database state
after the call is the state before it. -/
theorem C4_schema_mismatch_no_mutation (db : DB) (df : Frame) (tname : String)
    (key_columns : List String) (update_columns : Option (List String))
    (fault : Option UFault)
    (h : ¬ (∀ k ∈ key_columns, k ∈ query_columns db tname)) :
    (update_from_dataframe db df tname key_columns update_columns fault).1 = db ∧
    ∃ msg, (update_from_dataframe db df tname key_columns update_columns fault).2 =
      UpdateResult.failure msg := by
  simp only [update_from_dataframe, update_from_dataframe_body]
  by_cases h1 : query_columns db tname = []
  · rw [if_pos h1]
    exact ⟨rfl, "ValueError: could not fetch columns", rfl⟩
  · rw [if_neg h1, if_pos h]
    exact ⟨rfl, "ValueError: key columns not in table", rfl⟩

/-- Witness for C4: a key column absent from the `positions` table leaves
the database untouched and yields a reported failure. -/
theorem C4_schema_mismatch_no_mutation_witness :
    (update_from_dataframe db0 batchDf "positions" ["missing_col"] none none).1 = db0 ∧
    ∃ msg, (update_from_dataframe db0 batchDf "positions" ["missing_col"] none none).2 =
      UpdateResult.failure msg :=
  C4_schema_mismatch_no_mutation db0 batchDf "positions" ["missing_col"] none none (by decide)

/-- C5: when the resolved update-column set is empty, the bulk update
returns the distinct no-op success without touching storage: the returned
database is exactly the input database. -/
theorem C5_empty_update_columns_noop (db : DB) (df : Frame) (tname : String)
    (key_columns : List String) (update_columns : Option (List String))
    (fault : Option UFault)
    (h1 : query_columns db tname ≠ [])
    (h2 : ∀ k ∈ key_columns, k ∈ query_columns db tname)
    (h3 : resolve_update_columns df.cols key_columns update_columns
      (query_columns db tname) = []) :
    update_from_dataframe db df tname key_columns update_columns fault =
      (db, UpdateResult.ok UpdateOk.noopNoColumns) := by
  simp only [update_from_dataframe, update_from_dataframe_body]
  rw [if_neg h1, if_neg (not_not_intro h2), if_pos h3]

/-- Witness for C5: explicitly requesting an empty update-column list is a
no-op success leaving the database byte-for-byte unchanged. -/
theorem C5_empty_update_columns_noop_witness :
    update_from_dataframe db0 batchDf "positions" ["symbol"] (some []) none =
      (db0, UpdateResult.ok UpdateOk.noopNoColumns) :=
  C5_empty_update_columns_noop db0 batchDf "positions" ["symbol"] (some []) none
    (by decide) (by decide) (by decide)

/-- C6: write-path column reconciliation returns a subsequence of the batch
columns (hence a subset preserving the batch order) containing no column
absent from the target columns; the same holds for the update path with its
defaulted update-column resolution. -/
theorem C6_reconcile_subset_order (batchCols tableCols : List String) :
    ((reconcile_for_write batchCols tableCols).Sublist batchCols ∧
      ∀ c ∈ reconcile_for_write batchCols tableCols, c ∈ tableCols) ∧
    ∀ key_columns : List String,
      (resolve_update_columns batchCols key_columns none tableCols).Sublist batchCols ∧
      ∀ c ∈ resolve_update_columns batchCols key_columns none tableCols, c ∈ tableCols := by
  refine ⟨⟨List.filter_sublist _, ?_⟩, ?_⟩
  · intro c hc
    exact of_decide_eq_true (List.mem_filter.mp hc).2
  · intro key_columns
    constructor
    · exact (List.filter_sublist _).trans (List.filter_sublist _)
    · intro c hc
      exact (resolve_update_columns_not_key batchCols key_columns none tableCols c hc).1

/-- Witness for C6: the reconciliation of the scenario batch against the
scenario table, together with one membership instance. -/
theorem C6_reconcile_subset_order_witness :
    (reconcile_for_write ["symbol", "shares", "extra"] ["symbol", "shares"]).Sublist
      ["symbol", "shares", "extra"] ∧ "shares" ∈ ["symbol", "shares"] :=
  ⟨(C6_reconcile_subset_order ["symbol", "shares", "extra"] ["symbol", "shares"]).1.1,
   (C6_reconcile_subset_order ["symbol", "shares", "extra"] ["symbol", "shares"]).1.2
     "shares" (by decide)⟩

/-- C8: no column is simultaneously a match key and a write target.  In the
bulk path every resolved update column is filtered to lie outside the key
columns; in the single-record path `update_record` never builds or executes
any SET clause at all (its key-removal statement raises `TypeError`
unconditionally and the handler swallows it), so the database is returned
unchanged — in particular no key column is ever written there either. -/
theorem C8_keys_never_written :
    (∀ (dfCols key_columns : List String) (update_columns : Option (List String))
      (table_cols : List String),
      ∀ c ∈ resolve_update_columns dfCols key_columns update_columns table_cols,
        c ∉ key_columns) ∧
    (∀ (db : DB) (tname : String) (update_values conditions : List (String × Value)),
      update_record db tname update_values conditions = (db, Except.ok ())) := by
  constructor
  · intro dfCols key_columns update_columns table_cols c hc
    exact (resolve_update_columns_not_key dfCols key_columns update_columns table_cols
      c hc).2
  · intro db tname update_values conditions
    rfl

/-- Witness for C8: `shares` is a resolved update column of the scenario and
is not a key; and the scenario `update_record` call — which even asks to
overwrite the key column — leaves the database unchanged. -/
theorem C8_keys_never_written_witness :
    "shares" ∉ ["symbol"] ∧
    update_record db0 "positions"
      [("symbol", Value.s "MSFT"), ("shares", Value.i 25)]
      [("symbol", Value.s "AAPL")] = (db0, Except.ok ()) :=
  ⟨C8_keys_never_written.1 ["symbol", "shares", "updated_at"] ["symbol"] none
      ["symbol", "shares", "updated_at"] "shares" (by decide),
   C8_keys_never_written.2 db0 "positions"
      [("symbol", Value.s "MSFT"), ("shares", Value.i 25)]
      [("symbol", Value.s "AAPL")]⟩

/-- C9 as stated is FALSE of the code: `get_snapshot_id` has no handler, so
an exception raised by its INSERT statement propagates out of the operation
(modelled as an `Except.error` still visible at the operation boundary,
which the insert and update boundaries never produce). -/
theorem C9_counterexample_snapshot_propagates :
    (get_snapshot_id db0 SnapFault.raise).2 =
      Except.error "OperationalError: connection failure" := rfl

/-- C9 amended: `insert_dataframe` and `update_from_dataframe` catch every
underlying failure at the operation boundary, converting it into the logged
no-op or reported-failure result; `get_snapshot_id` converts only the
missing-RETURNING-row case into the sentinel `-1`, while an underlying
database exception there propagates to the caller. -/
theorem C9_amended_boundary_conversion :
    (∀ (db : DB) (df : Frame) (tname : String) (ife : IfExists) (fault : Bool),
      (insert_dataframe db df tname ife fault).2 = Except.ok ()) ∧
    (∀ (db : DB) (df : Frame) (tname : String) (key_columns : List String)
      (update_columns : Option (List String)) (fault : Option UFault) (db2 : DB) (e : String),
      update_from_dataframe_body db df tname key_columns update_columns fault =
        (db2, Except.error e) →
      update_from_dataframe db df tname key_columns update_columns fault =
        (db2, UpdateResult.failure e)) ∧
    (∀ db : DB, get_snapshot_id db SnapFault.noRow = (db, Except.ok (-1))) := by
  refine ⟨?_, ?_, ?_⟩
  · intro db df tname ife fault
    cases hb : insert_dataframe_body db df tname ife fault with
    | mk db2 r =>
      cases r with
      | ok u => simp [insert_dataframe, hb]
      | error e => simp [insert_dataframe, hb]
  · intro db df tname key_columns update_columns fault db2 e hb
    simp [update_from_dataframe, hb]
  · intro db
    rfl

/-- Witness for C9 amended: an injected staging-load failure in the scenario
bulk update surfaces as a reported failure (not a propagated exception), a
faulted insert still returns normally, and the no-row snapshot case returns
the sentinel. -/
theorem C9_amended_boundary_conversion_witness :
    update_from_dataframe db0 batchDf "positions" ["symbol"] none (some UFault.load) =
      (db0, UpdateResult.failure "OperationalError: staging load failed") ∧
    (insert_dataframe db0 batchDf "positions" IfExists.append true).2 = Except.ok () ∧
    get_snapshot_id db0 SnapFault.noRow = (db0, Except.ok (-1)) :=
  ⟨C9_amended_boundary_conversion.2.1 db0 batchDf "positions" ["symbol"] none
      (some UFault.load) db0 "OperationalError: staging load failed" rfl,
   C9_amended_boundary_conversion.1 db0 batchDf "positions" IfExists.append true,
   C9_amended_boundary_conversion.2.2 db0⟩

/-- C10: `get_price_history` raises `ValueError` before issuing any external
request exactly when the period or frequency parameters are invalid for the
tables of lines 76-87, and proceeds to the request exactly when both pairs
are valid. -/
theorem C10_price_history_validation (period_type period frequency_type frequency : String) :
    (get_price_history_dispatch period_type period frequency_type frequency =
        PriceHistoryStep.proceedsToRequest ↔
      (period_type ∈ ["day", "month", "year", "ytd"] ∧
        period ∈ valid_periods period_type) ∧
      (frequency_type ∈ ["minute", "daily", "weekly", "monthly"] ∧
        frequency ∈ valid_frequencies frequency_type)) ∧
    ((∃ msg, get_price_history_dispatch period_type period frequency_type frequency =
        PriceHistoryStep.raisedValueError msg) ↔
      ¬ ((period_type ∈ ["day", "month", "year", "ytd"] ∧
        period ∈ valid_periods period_type) ∧
      (frequency_type ∈ ["minute", "daily", "weekly", "monthly"] ∧
        frequency ∈ valid_frequencies frequency_type))) := by
  unfold get_price_history_dispatch
  by_cases h1 : period_type ∉ ["day", "month", "year", "ytd"] ∨
      period ∉ valid_periods period_type
  · rw [if_pos h1]
    constructor
    · constructor
      · intro h; exact absurd h (by simp)
      · intro h
        rcases h1 with h1 | h1
        · exact absurd h.1.1 h1
        · exact absurd h.1.2 h1
    · constructor
      · intro _
        intro hcon
        rcases h1 with h1 | h1
        · exact absurd hcon.1.1 h1
        · exact absurd hcon.1.2 h1
      · intro _
        exact ⟨_, rfl⟩
  · rw [if_neg h1]
    rcases not_or.mp h1 with ⟨hp1, hp2⟩
    by_cases h2 : frequency_type ∉ ["minute", "daily", "weekly", "monthly"] ∨
        frequency ∉ valid_frequencies frequency_type
    · rw [if_pos h2]
      constructor
      · constructor
        · intro h; exact absurd h (by simp)
        · intro h
          rcases h2 with h2 | h2
          · exact absurd h.2.1 h2
          · exact absurd h.2.2 h2
      · constructor
        · intro _
          intro hcon
          rcases h2 with h2 | h2
          · exact absurd hcon.2.1 h2
          · exact absurd hcon.2.2 h2
        · intro _
          exact ⟨_, rfl⟩
    · rw [if_neg h2]
      rcases not_or.mp h2 with ⟨hf1, hf2⟩
      constructor
      · constructor
        · intro _
          exact ⟨⟨of_not_not hp1, of_not_not hp2⟩, ⟨of_not_not hf1, of_not_not hf2⟩⟩
        · intro _; rfl
      · constructor
        · intro h
          obtain ⟨msg, hmsg⟩ := h
          exact absurd hmsg (by simp)
        · intro h
          exact absurd ⟨⟨of_not_not hp1, of_not_not hp2⟩,
            ⟨of_not_not hf1, of_not_not hf2⟩⟩ h
